import Mathlib

/-!
Verification of the cursor-based pagination and search engine of the user
repository service (`services/repository/mongodb/service.go`, function
`Search`), together with the records and error values it manipulates
(`services/repository/message.go`, `services/repository/errors.go`,
`models/model.go`).

MongoDB object identifiers are 12-byte values rendered as 24-character hex
strings; we model a native identifier as a `Nat` below `16 ^ 24` and
transcribe the hex codec (`primitive.ObjectIDFromHex` / `ObjectID.Hex`).
The external MongoDB collection is modelled, following the specification
of the store boundary, as an ordered list of `(identifier, document)`
pairs together with failure flags for its two read operations.
-/

namespace UserRepo

/-! ## Identifier codec (primitive.ObjectIDFromHex / ObjectID.Hex) -/

/-- Value of one hex digit character, as accepted by the Go hex decoder:
digits, lowercase and uppercase letters. `none` on a non-hex character. -/
def hexVal (c : Char) : Option Nat :=
  if ('0' ≤ c) && (c ≤ '9') then some (c.toNat - 48)
  else if ('a' ≤ c) && (c ≤ 'f') then some (c.toNat - 87)
  else if ('A' ≤ c) && (c ≤ 'F') then some (c.toNat - 55)
  else none

/-- Lowercase hex digit character for a value below 16, as produced by the
Go hex encoder. -/
def hexChar (n : Nat) : Char :=
  if n < 10 then Char.ofNat (48 + n) else Char.ofNat (87 + n)

/-- Big-endian hex rendering of `n` on exactly `k` digits. -/
def toHexCore : Nat → Nat → List Char
  | 0, _ => []
  | k + 1, n => hexChar (n / 16 ^ k % 16) :: toHexCore k (n % 16 ^ k)

/-- `ObjectID.Hex`: the 24-character lowercase hex string of an identifier. -/
def objectIDHex (n : Nat) : String :=
  String.mk (toHexCore 24 n)

/-- Left fold of hex digits into a number; fails on the first non-hex
character. -/
def parseHexAux : Nat → List Char → Option Nat
  | acc, [] => some acc
  | acc, c :: cs =>
    match hexVal c with
    | none => none
    | some v => parseHexAux (16 * acc + v) cs

/-- `primitive.ObjectIDFromHex`: succeeds exactly on 24-character hex
strings. -/
def objectIDFromHex (s : String) : Option Nat :=
  if s.length = 24 then parseHexAux 0 s.data else none

/-! ## Data model (models/model.go, repository messages, go-core common) -/

/-- `models.User`. -/
structure User where
  email : String
deriving DecidableEq, Repr

/-- `models.UserWithCursor`. -/
structure UserWithCursor where
  UserID : String
  User : User
  Cursor : String
deriving DecidableEq, Repr

/-- `common.SortingDirection` of micro-business go-core. -/
inductive SortDirection
  | Ascending
  | Descending
deriving DecidableEq, Repr

/-- `common.SortingOptionPair`. -/
structure SortingOptionPair where
  Name : String
  Direction : SortDirection
deriving DecidableEq, Repr

/-- `common.Pagination`: optional cursors and optional signed counts
(Go `*string` / `*int`). -/
structure Pagination where
  After : Option String := none
  Before : Option String := none
  First : Option Int := none
  Last : Option Int := none
deriving DecidableEq, Repr

/-- `repository.SearchRequest` (fields as constructed throughout the
repository and its tests: `UserIDs`, `Pagination`, `SortingOptions`). -/
structure SearchRequest where
  UserIDs : List String := []
  Pagination : Pagination := {}
  SortingOptions : List SortingOptionPair := []
deriving DecidableEq, Repr

/-- `repository.SearchResponse`. -/
structure SearchResponse where
  HasPreviousPage : Bool
  HasNextPage : Bool
  TotalCount : Int
  Users : List UserWithCursor
deriving DecidableEq, Repr

/-! ## Errors (services/repository/errors.go) -/

/-- Underlying causes wrapped by the repository errors: a hex-decode
failure on a given string, or a failed store operation. -/
inductive ErrCause
  | hexDecode (s : String)
  | storeCount
  | storeFind
deriving DecidableEq, Repr

/-- The error values of the `repository` package that `Search` and its
siblings construct. `Search` itself only ever builds `unknownError`
(`repository.NewUnknownErrorWithError`). -/
inductive RepoError
  | unknownError (message : String) (cause : Option ErrCause)
  | userNotFoundError (email : String) (cause : Option ErrCause)
  | userAlreadyExistsError (cause : Option ErrCause)
deriving DecidableEq, Repr

/-- The dynamic Go type of a repository error value: this is all a caller
can distinguish without inspecting message strings. -/
inductive ErrKind
  | unknown
  | userNotFound
  | userAlreadyExists
deriving DecidableEq, Repr

/-- Kind (dynamic type) of a repository error. -/
def RepoError.kind : RepoError → ErrKind
  | .unknownError _ _ => .unknown
  | .userNotFoundError _ _ => .userNotFound
  | .userAlreadyExistsError _ => .userAlreadyExists

/-! ## The query predicate (the `bson.M` map built by `Search`) -/

/-- A condition placed on the `_id` field (or inside the single-clause
`$and` list) of the query document. -/
inductive IdCond
  | inList (ids : List Nat)
  | gt (bound : Nat)
  | lt (bound : Nat)
deriving DecidableEq, Repr

/-- Truth of an `_id` condition on a native identifier. ObjectIDs compare
bytewise, which on our numeric model is the numeric order. -/
def IdCond.eval : IdCond → Nat → Bool
  | .inList ids, i => ids.contains i
  | .gt bound, i => bound < i
  | .lt bound, i => i < bound

/-- The query document: `Search` uses at most two map keys, `_id` (holding
either the `$in` list or a single range bound) and `$and` (holding a
one-clause list with a range bound). Re-assigning a key overwrites it,
exactly as in a Go map. -/
structure Filter where
  idCond : Option IdCond := none
  andCond : Option IdCond := none
deriving DecidableEq, Repr

/-- `len(filter)`: the number of keys present in the map. -/
def Filter.len (f : Filter) : Nat :=
  (if f.idCond.isSome then 1 else 0) + (if f.andCond.isSome then 1 else 0)

/-- Truth of the whole query document on an identifier: top-level keys are
conjoined. -/
def Filter.eval (f : Filter) (i : Nat) : Bool :=
  (match f.idCond with
   | some c => c.eval i
   | none => true) &&
  (match f.andCond with
   | some c => c.eval i
   | none => true)

/-- The initial filter: `filter["_id"] = bson.M{"$in": ids}` exactly when
`len(request.UserIDs) > 0`. -/
def initFilter (userIDs : List String) (ids : List Nat) : Filter :=
  if userIDs.length > 0 then { idCond := some (.inList ids) } else {}

/-- Adding the `After` bound: when the map already has a key, assign the
`$and` key to a one-clause greater-than list, otherwise assign `_id`
directly. -/
def addAfter (f : Filter) (oid : Nat) : Filter :=
  if 0 < f.len then { f with andCond := some (.gt oid) }
  else { f with idCond := some (.gt oid) }

/-- Adding the `Before` bound: same key discipline as `addAfter`, with a
less-than clause; assigning `$and` overwrites any clause already there. -/
def addBefore (f : Filter) (oid : Nat) : Filter :=
  if 0 < f.len then { f with andCond := some (.lt oid) }
  else { f with idCond := some (.lt oid) }

/-! ## The external store (modelled at the spec's store boundary) -/

/-- Modelled from the spec: the external MongoDB collection, an ordered
document store holding `(native identifier, document)` pairs in its
iteration (natural) order, with flags letting its count and find
operations fail the way a driver call can. The store itself is outside
this repository; the spec describes it as an ordered store supporting
`count(predicate)` and `fetch(predicate, sortSpec, limit)`. -/
structure Store where
  docs : List (Nat × User)
  countFails : Bool := false
  findFails : Bool := false
deriving DecidableEq, Repr

/-- Modelled from the spec: `count(predicate)` returns the number of
matching documents, or fails when the driver call fails. -/
def storeCount (st : Store) (f : Filter) : Option Nat :=
  if st.countFails then none
  else some ((st.docs.filter fun d => f.eval d.1).length)

/-- One sort key applied to two documents: `_id` compares identifiers,
`email` compares the email field, an unknown field compares equal; a
negative direction reverses the comparison. -/
def sortKeyCmp (k : String × Int) (x y : Nat × User) : Ordering :=
  let base : Ordering :=
    if k.1 = "_id" then compare x.1 y.1
    else if k.1 = "email" then compare x.2.email y.2.email
    else .eq
  if k.2 < 0 then base.swap else base

/-- Multi-key comparison, first key highest priority. -/
def multiCmp (ks : List (String × Int)) (x y : Nat × User) : Ordering :=
  match ks with
  | [] => .eq
  | k :: rest =>
    match sortKeyCmp k x y with
    | .eq => multiCmp rest x y
    | o => o

/-- Stable insertion into a sorted list. -/
def insertSortedBy (le : α → α → Bool) (x : α) : List α → List α
  | [] => [x]
  | y :: ys => if le x y then x :: y :: ys else y :: insertSortedBy le x ys

/-- Stable insertion sort. -/
def sortListBy (le : α → α → Bool) : List α → List α
  | [] => []
  | x :: xs => insertSortedBy le x (sortListBy le xs)

/-- Modelled from the spec: the store's sort semantics — with no sort
specification the natural iteration order stands, otherwise a stable
multi-key sort. -/
def applySort (sort : List (String × Int)) (l : List (Nat × User)) : List (Nat × User) :=
  match sort with
  | [] => l
  | _ => sortListBy (fun x y => multiCmp sort x y ≠ Ordering.gt) l

/-- Modelled from the spec: a `Find` limit option truncates the result. -/
def applyLimit (limit : Option Int) (l : List (Nat × User)) : List (Nat × User) :=
  match limit with
  | none => l
  | some n => l.take n.toNat

/-- Modelled from the spec: `fetch(predicate, sortSpec, limit)` returns
the matching documents in sorted order up to the limit, or fails when the
driver call fails. -/
def storeFind (st : Store) (f : Filter) (limit : Option Int)
    (sort : List (String × Int)) : Option (List (Nat × User)) :=
  if st.findFails then none
  else some (applyLimit limit (applySort sort (st.docs.filter fun d => f.eval d.1)))

/-! ## The Search function (mongodb/service.go, lines 204-351) -/

/-- The operations `Search` issues against the store, with their
arguments, in order. -/
inductive StoreOp
  | countDocuments (f : Filter)
  | find (f : Filter) (limit : Option Int) (sort : List (String × Int))
deriving DecidableEq, Repr

/-- The observable outcome of a call to `Search`: a runtime panic, an
error return, or a response. -/
inductive Outcome
  | panicked
  | failure (e : RepoError)
  | success (r : SearchResponse)
deriving DecidableEq, Repr

/-- The `UserIDs` decode loop: decode every entry, aborting with the
wrapped error on the first entry that is not a valid hex ObjectID. -/
def decodeUserIDs : List String → Except RepoError (List Nat)
  | [] => .ok []
  | s :: rest =>
    match objectIDFromHex s with
    | none =>
      .error (.unknownError ("Failed to decode the userID: " ++ s ++ ".")
        (some (.hexDecode s)))
    | some i => (decodeUserIDs rest).map (fun is => i :: is)

/-- The `Pagination.After` step: decode the cursor and add the
greater-than bound, or fail with the wrapped decode error. -/
def applyAfter (p : Pagination) (f : Filter) : Except RepoError Filter :=
  match p.After with
  | none => .ok f
  | some a =>
    match objectIDFromHex a with
    | none =>
      .error (.unknownError ("Failed to decode the After: " ++ a ++ ".")
        (some (.hexDecode a)))
    | some oid => .ok (addAfter f oid)

/-- The `Pagination.Before` step: decode the cursor and add the less-than
bound, or fail with the wrapped decode error. -/
def applyBefore (p : Pagination) (f : Filter) : Except RepoError Filter :=
  match p.Before with
  | none => .ok f
  | some b =>
    match objectIDFromHex b with
    | none =>
      .error (.unknownError ("Failed to decode the Before: " ++ b ++ ".")
        (some (.hexDecode b)))
    | some oid => .ok (addBefore f oid)

/-- The find limit: `SetLimit(first)` when `First` is set, then
`SetLimit(last)` when `Last` is set — the second assignment overwrites
the first. -/
def findLimit (p : Pagination) : Option Int :=
  let l0 : Option Int := none
  let l1 :=
    match p.First with
    | some f => some f
    | none => l0
  match p.Last with
  | some l => some l
  | none => l1

/-- The sort option pairs handed to `Find`: each sorting option becomes
`(name, 1)` for ascending and `(name, -1)` for descending, input order
preserved. -/
def buildSort (opts : List SortingOptionPair) : List (String × Int) :=
  opts.map fun o => (o.Name, if o.Direction = SortDirection.Descending then (-1 : Int) else 1)

/-- Comparison `int64(*count) < totalCount` guarded by presence of the
count pointer. -/
def intLt (o : Option Int) (tc : Int) : Bool :=
  match o with
  | some v => v < tc
  | none => false

/-- The page-flag cascade of lines 338-348, first matching branch wins:
the pair is `(HasNextPage, HasPreviousPage)`. -/
def codeFlags (p : Pagination) (tc : Int) : Bool × Bool :=
  if (p.After.isSome && p.First.isSome && intLt p.First tc) ||
      (p.Before.isSome && p.Last.isSome && intLt p.Last tc) then
    (true, true)
  else if p.After.isNone && p.First.isSome && intLt p.First tc then
    (true, false)
  else if p.Before.isNone && p.Last.isSome && intLt p.Last tc then
    (false, true)
  else
    (false, false)

/-- Decoding one fetched document into `models.UserWithCursor`: the
identifier's hex rendering serves as both `UserID` and `Cursor`. -/
def mkEntry (d : Nat × User) : UserWithCursor :=
  { UserID := objectIDHex d.1, User := d.2, Cursor := objectIDHex d.1 }

/-- Assembling the successful response from the pagination, the total
count and the fetched documents. -/
def assemble (p : Pagination) (tc : Int) (docs : List (Nat × User)) : SearchResponse :=
  { HasPreviousPage := (codeFlags p tc).2
    HasNextPage := (codeFlags p tc).1
    TotalCount := tc
    Users := docs.map mkEntry }

/-- Error returned when the count driver call fails. -/
def countFailErr : RepoError :=
  .unknownError "Failed to retrieve the number of users that match the filter criteria"
    (some .storeCount)

/-- Error returned when the find driver call fails. -/
def findFailErr : RepoError :=
  .unknownError "Failed to call the Find function on the collection."
    (some .storeFind)

/-- The body of `Search` for a non-nil request, returning the outcome and
the trace of store operations issued. Transcribed branch for branch from
`mongodbRepositoryService.Search`. -/
def searchCore (st : Store) (request : SearchRequest) : Outcome × List StoreOp :=
  match decodeUserIDs request.UserIDs with
  | .error e => (.failure e, [])
  | .ok ids =>
    match storeCount st (initFilter request.UserIDs ids) with
    | none => (.failure countFailErr, [.countDocuments (initFilter request.UserIDs ids)])
    | some cnt =>
      if cnt = 0 then
        (.success { HasPreviousPage := false, HasNextPage := false,
                    TotalCount := (cnt : Int), Users := [] },
         [.countDocuments (initFilter request.UserIDs ids)])
      else
        match applyAfter request.Pagination (initFilter request.UserIDs ids) with
        | .error e => (.failure e, [.countDocuments (initFilter request.UserIDs ids)])
        | .ok f1 =>
          match applyBefore request.Pagination f1 with
          | .error e => (.failure e, [.countDocuments (initFilter request.UserIDs ids)])
          | .ok f2 =>
            match storeFind st f2 (findLimit request.Pagination)
                (buildSort request.SortingOptions) with
            | none =>
              (.failure findFailErr,
               [.countDocuments (initFilter request.UserIDs ids),
                .find f2 (findLimit request.Pagination) (buildSort request.SortingOptions)])
            | some docs =>
              (.success (assemble request.Pagination (cnt : Int) docs),
               [.countDocuments (initFilter request.UserIDs ids),
                .find f2 (findLimit request.Pagination) (buildSort request.SortingOptions)])

/-- `Search`: a nil request is dereferenced on its first use
(`request.UserIDs`, line 213) with no preceding nil check, so the call
panics; otherwise the body runs. -/
def search (st : Store) (request : Option SearchRequest) : Outcome × List StoreOp :=
  match request with
  | none => (.panicked, [])
  | some r => searchCore st r

/-! ## The specification's statements, for refinement comparison -/

/-- Modelled from the spec: the §4.5 page-flag decision table, evaluated
first matching rule wins; the pair is `(hasNextPage, hasPreviousPage)`. -/
def specTableFlags (p : Pagination) (tc : Int) : Bool × Bool :=
  if p.After.isSome && p.Before.isSome then (true, true)
  else if p.After.isNone && p.Before.isSome then (false, intLt p.Last tc)
  else if p.After.isSome && p.Before.isNone && p.First.isSome then (intLt p.First tc, false)
  else if p.After.isNone && p.Before.isNone && p.First.isSome then (intLt p.First tc, false)
  else if p.After.isNone && p.Before.isNone && p.Last.isSome then (false, intLt p.Last tc)
  else (false, false)

/-- Modelled from the spec: the §4.4 fetch limit, `pagination.first` if
present else `pagination.last` if present else unbounded. -/
def specLimit (p : Pagination) : Option Int :=
  match p.First with
  | some f => some f
  | none => p.Last

/-- First entry of a list of user IDs that is not a valid hex ObjectID,
if any: this is the entry whose decode aborts the `UserIDs` loop. -/
def firstBadID : List String → Option String
  | [] => none
  | s :: rest =>
    match objectIDFromHex s with
    | none => some s
    | some _ => firstBadID rest

/-! ## Concrete instances used as witnesses and counterexamples -/

/-- A sample stored document. -/
def sampleUser : User := { email := "user@example.com" }

/-- One-document store. -/
def c1store : Store := { docs := [(1, sampleUser)] }

/-- Request with both cursors set and neither count set. -/
def c1req : SearchRequest :=
  { Pagination := { After := some (objectIDHex 2), Before := some (objectIDHex 3) } }

/-- Two-document store. -/
def c1wstore : Store := { docs := [(1, sampleUser), (2, sampleUser)] }

/-- Request asking for the first page of one document. -/
def c1wreq : SearchRequest := { Pagination := { First := some 1 } }

/-- The response the two-document store yields for `c1wreq`. -/
def c1wresp : SearchResponse :=
  { HasPreviousPage := false, HasNextPage := true, TotalCount := 2,
    Users := [mkEntry (1, sampleUser)] }

/-- Nine documents following the first one, identifiers ascending. -/
def c2rest : List (Nat × User) :=
  [(2, sampleUser), (3, sampleUser), (4, sampleUser), (5, sampleUser), (6, sampleUser),
   (7, sampleUser), (8, sampleUser), (9, sampleUser), (10, sampleUser)]

/-- Ten-document store in ascending identifier order. -/
def c2store : Store := { docs := (1, sampleUser) :: c2rest }

/-- Forward-pagination request: after the first document's cursor, first 9. -/
def c2req : SearchRequest :=
  { Pagination := { After := some (objectIDHex 1), First := some 9 } }

/-- One-document store whose document matches no requested identifier. -/
def c3store : Store := { docs := [(5, sampleUser)] }

/-- Request filtering on an identifier absent from the store. -/
def c3req : SearchRequest := { UserIDs := [objectIDHex 9] }

/-- Three-document store. -/
def c4store : Store :=
  { docs := [(1, sampleUser), (2, sampleUser), (3, sampleUser)] }

/-- Request with a non-empty identifier filter and both cursors set. -/
def c4req : SearchRequest :=
  { UserIDs := [objectIDHex 1, objectIDHex 2, objectIDHex 3],
    Pagination := { After := some (objectIDHex 2), Before := some (objectIDHex 3) } }

/-- Three-document store. -/
def c5store : Store :=
  { docs := [(1, sampleUser), (2, sampleUser), (3, sampleUser)] }

/-- Request with both counts set: `First = 1`, `Last = 2`. -/
def c5req : SearchRequest := { Pagination := { First := some 1, Last := some 2 } }

/-- One-document store. -/
def c6store : Store := { docs := [(1, sampleUser)] }

/-- Request whose identifier filter holds a malformed entry. -/
def c6req : SearchRequest := { UserIDs := ["zzz"] }

/-- One-document store. -/
def c7wstore : Store := { docs := [(3, sampleUser)] }

/-- Request with no filter and no pagination. -/
def c7wreq : SearchRequest := {}

/-- One-document store. -/
def c8store1 : Store := { docs := [(1, sampleUser)] }

/-- Request whose `After` cursor is malformed. -/
def c8req1 : SearchRequest := { Pagination := { After := some "bad" } }

/-- The error `Search` returns for the malformed `After` cursor "bad". -/
def c8err1 : RepoError :=
  .unknownError "Failed to decode the After: bad." (some (.hexDecode "bad"))

/-- One-document store whose count operation fails. -/
def c8store2 : Store := { docs := [(1, sampleUser)], countFails := true }

/-- Request with no filter and no pagination. -/
def c8req2 : SearchRequest := {}

/-- One-document store. -/
def c9store : Store := { docs := [(1, sampleUser)] }

/-- Empty store. -/
def c10store : Store := { docs := [] }

/-- Request with a malformed `After` cursor and no identifier filter. -/
def c10req : SearchRequest := { Pagination := { After := some "bad" } }

/-! ## Codec lemmas -/

lemma hexVal_hexChar (d : Nat) (h : d < 16) : hexVal (hexChar d) = some d := by
  interval_cases d <;> decide

lemma toHexCore_length (k : Nat) : ∀ n, (toHexCore k n).length = k := by
  induction k with
  | zero => intro n; rfl
  | succ k ih => intro n; simp [toHexCore, ih]

lemma parseHexAux_toHexCore (k : Nat) : ∀ n acc : Nat, n < 16 ^ k →
    parseHexAux acc (toHexCore k n) = some (acc * 16 ^ k + n) := by
  induction k with
  | zero =>
    intro n acc hn
    have hn0 : n = 0 := Nat.lt_one_iff.mp (by simpa using hn)
    subst hn0
    simp [toHexCore, parseHexAux]
  | succ k ih =>
    intro n acc hn
    have hd : n / 16 ^ k % 16 < 16 := Nat.mod_lt _ (by norm_num)
    have hdiv : n / 16 ^ k < 16 := by
      apply Nat.div_lt_of_lt_mul
      rw [pow_succ] at hn
      linarith [hn]
    have hmod : n % 16 ^ k < 16 ^ k := Nat.mod_lt _ (pow_pos (by norm_num) k)
    simp only [toHexCore, parseHexAux, hexVal_hexChar _ hd]
    rw [ih _ _ hmod]
    congr 1
    have h1 : n / 16 ^ k % 16 = n / 16 ^ k := Nat.mod_eq_of_lt hdiv
    have h2 : 16 ^ k * (n / 16 ^ k) + n % 16 ^ k = n := Nat.div_add_mod n (16 ^ k)
    calc (16 * acc + n / 16 ^ k % 16) * 16 ^ k + n % 16 ^ k
        = acc * 16 ^ (k + 1) + (16 ^ k * (n / 16 ^ k) + n % 16 ^ k) := by
          rw [h1, pow_succ]; ring
      _ = acc * 16 ^ (k + 1) + n := by rw [h2]

lemma objectIDFromHex_objectIDHex (n : Nat) (h : n < 16 ^ 24) :
    objectIDFromHex (objectIDHex n) = some n := by
  unfold objectIDFromHex objectIDHex
  have hlen : (String.mk (toHexCore 24 n)).length = 24 := by
    simp [String.length, toHexCore_length]
  rw [if_pos hlen]
  show parseHexAux 0 (toHexCore 24 n) = some n
  rw [parseHexAux_toHexCore 24 n 0 h]
  simp

/-! ## Inversion lemmas about searchCore -/

lemma searchCore_success_inv (st : Store) (req : SearchRequest)
    (resp : SearchResponse) (ops : List StoreOp)
    (h : searchCore st req = (.success resp, ops)) :
    ∃ ids cnt, decodeUserIDs req.UserIDs = .ok ids ∧
      storeCount st (initFilter req.UserIDs ids) = some cnt ∧
      ((cnt = 0 ∧
        resp = { HasPreviousPage := false, HasNextPage := false,
                 TotalCount := (cnt : Int), Users := [] } ∧
        ops = [.countDocuments (initFilter req.UserIDs ids)]) ∨
       (cnt ≠ 0 ∧ ∃ f1 f2 docs,
        applyAfter req.Pagination (initFilter req.UserIDs ids) = .ok f1 ∧
        applyBefore req.Pagination f1 = .ok f2 ∧
        storeFind st f2 (findLimit req.Pagination) (buildSort req.SortingOptions) = some docs ∧
        resp = assemble req.Pagination (cnt : Int) docs ∧
        ops = [.countDocuments (initFilter req.UserIDs ids),
               .find f2 (findLimit req.Pagination) (buildSort req.SortingOptions)])) := by
  unfold searchCore at h
  cases hdec : decodeUserIDs req.UserIDs with
  | error e => simp only [hdec] at h; simp at h
  | ok ids =>
    simp only [hdec] at h
    cases hcnt : storeCount st (initFilter req.UserIDs ids) with
    | none => simp only [hcnt] at h; simp at h
    | some cnt =>
      simp only [hcnt] at h
      by_cases h0 : cnt = 0
      · rw [if_pos h0] at h
        simp only [Prod.mk.injEq, Outcome.success.injEq] at h
        exact ⟨ids, cnt, rfl, hcnt, Or.inl ⟨h0, h.1.symm, h.2.symm⟩⟩
      · rw [if_neg h0] at h
        cases haft : applyAfter req.Pagination (initFilter req.UserIDs ids) with
        | error e => simp only [haft] at h; simp at h
        | ok f1 =>
          simp only [haft] at h
          cases hbef : applyBefore req.Pagination f1 with
          | error e => simp only [hbef] at h; simp at h
          | ok f2 =>
            simp only [hbef] at h
            cases hfnd : storeFind st f2 (findLimit req.Pagination)
                (buildSort req.SortingOptions) with
            | none => simp only [hfnd] at h; simp at h
            | some docs =>
              simp only [hfnd] at h
              simp only [Prod.mk.injEq, Outcome.success.injEq] at h
              exact ⟨ids, cnt, rfl, hcnt,
                Or.inr ⟨h0, f1, f2, docs, haft, hbef, hfnd, h.1.symm, h.2.symm⟩⟩

lemma decodeUserIDs_error_kind : ∀ (l : List String) (e : RepoError),
    decodeUserIDs l = .error e → e.kind = .unknown := by
  intro l
  induction l with
  | nil => intro e h; simp [decodeUserIDs] at h
  | cons s rest ih =>
    intro e h
    unfold decodeUserIDs at h
    cases hs : objectIDFromHex s with
    | none =>
      simp only [hs] at h
      simp only [Except.error.injEq] at h
      rw [← h]
      rfl
    | some i =>
      simp only [hs] at h
      cases hr : decodeUserIDs rest with
      | error e2 =>
        simp only [hr] at h
        simp only [Except.map, Except.error.injEq] at h
        rw [← h]
        exact ih e2 hr
      | ok is => simp only [hr] at h; simp [Except.map] at h

lemma applyAfter_error_kind (p : Pagination) (f : Filter) (e : RepoError)
    (h : applyAfter p f = .error e) : e.kind = .unknown := by
  unfold applyAfter at h
  cases ha : p.After with
  | none => simp only [ha] at h; simp at h
  | some a =>
    simp only [ha] at h
    cases hx : objectIDFromHex a with
    | none =>
      simp only [hx] at h
      simp only [Except.error.injEq] at h
      rw [← h]
      rfl
    | some oid => simp only [hx] at h; simp at h

lemma applyBefore_error_kind (p : Pagination) (f : Filter) (e : RepoError)
    (h : applyBefore p f = .error e) : e.kind = .unknown := by
  unfold applyBefore at h
  cases hb : p.Before with
  | none => simp only [hb] at h; simp at h
  | some b =>
    simp only [hb] at h
    cases hx : objectIDFromHex b with
    | none =>
      simp only [hx] at h
      simp only [Except.error.injEq] at h
      rw [← h]
      rfl
    | some oid => simp only [hx] at h; simp at h

lemma searchCore_failure_kind (st : Store) (req : SearchRequest)
    (e : RepoError) (ops : List StoreOp)
    (h : searchCore st req = (.failure e, ops)) : e.kind = .unknown := by
  unfold searchCore at h
  cases hdec : decodeUserIDs req.UserIDs with
  | error e0 =>
    simp only [hdec] at h
    simp only [Prod.mk.injEq, Outcome.failure.injEq] at h
    rw [← h.1]
    exact decodeUserIDs_error_kind _ _ hdec
  | ok ids =>
    simp only [hdec] at h
    cases hcnt : storeCount st (initFilter req.UserIDs ids) with
    | none =>
      simp only [hcnt] at h
      simp only [Prod.mk.injEq, Outcome.failure.injEq] at h
      rw [← h.1]
      rfl
    | some cnt =>
      simp only [hcnt] at h
      by_cases h0 : cnt = 0
      · rw [if_pos h0] at h; simp at h
      · rw [if_neg h0] at h
        cases haft : applyAfter req.Pagination (initFilter req.UserIDs ids) with
        | error e1 =>
          simp only [haft] at h
          simp only [Prod.mk.injEq, Outcome.failure.injEq] at h
          rw [← h.1]
          exact applyAfter_error_kind _ _ _ haft
        | ok f1 =>
          simp only [haft] at h
          cases hbef : applyBefore req.Pagination f1 with
          | error e2 =>
            simp only [hbef] at h
            simp only [Prod.mk.injEq, Outcome.failure.injEq] at h
            rw [← h.1]
            exact applyBefore_error_kind _ _ _ hbef
          | ok f2 =>
            simp only [hbef] at h
            cases hfnd : storeFind st f2 (findLimit req.Pagination)
                (buildSort req.SortingOptions) with
            | none =>
              simp only [hfnd] at h
              simp only [Prod.mk.injEq, Outcome.failure.injEq] at h
              rw [← h.1]
              rfl
            | some docs => simp only [hfnd] at h; simp at h

/-- Forward evaluation of `searchCore` in the success path, from the value
of each step. -/
lemma searchCore_eval (st : Store) (req : SearchRequest) (ids : List Nat)
    (cnt : Nat) (f1 f2 : Filter) (docs : List (Nat × User))
    (hdec : decodeUserIDs req.UserIDs = .ok ids)
    (hcnt : storeCount st (initFilter req.UserIDs ids) = some cnt)
    (h0 : cnt ≠ 0)
    (haft : applyAfter req.Pagination (initFilter req.UserIDs ids) = .ok f1)
    (hbef : applyBefore req.Pagination f1 = .ok f2)
    (hfnd : storeFind st f2 (findLimit req.Pagination) (buildSort req.SortingOptions)
      = some docs) :
    searchCore st req =
      (.success (assemble req.Pagination (cnt : Int) docs),
       [.countDocuments (initFilter req.UserIDs ids),
        .find f2 (findLimit req.Pagination) (buildSort req.SortingOptions)]) := by
  unfold searchCore
  simp only [hdec, hcnt, if_neg h0, haft, hbef, hfnd]

/-- When the count comes back zero, `Search` returns the empty page with
both flags false and issues no further store operation. -/
lemma search_zero_count_aux (st : Store) (req : SearchRequest) (ids : List Nat)
    (hdec : decodeUserIDs req.UserIDs = .ok ids)
    (hcf : st.countFails = false)
    (hzero : (st.docs.filter fun d => (initFilter req.UserIDs ids).eval d.1).length = 0) :
    search st (some req) =
      (.success { HasPreviousPage := false, HasNextPage := false,
                  TotalCount := 0, Users := [] },
       [.countDocuments (initFilter req.UserIDs ids)]) := by
  show searchCore st req = _
  have hc : storeCount st (initFilter req.UserIDs ids) = some 0 := by
    unfold storeCount
    rw [hcf]
    simp [hzero]
  unfold searchCore
  simp only [hdec, hc]
  norm_num

/-- Every trace of store operations has one of three shapes: nothing, the
count alone, or the count followed by the find carrying `findLimit` and
`buildSort` of the request. -/
lemma searchCore_ops (st : Store) (req : SearchRequest) :
    (searchCore st req).2 = [] ∨
    (∃ f0, (searchCore st req).2 = [.countDocuments f0]) ∨
    (∃ f0 f2, (searchCore st req).2 =
      [.countDocuments f0,
       .find f2 (findLimit req.Pagination) (buildSort req.SortingOptions)]) := by
  unfold searchCore
  cases hdec : decodeUserIDs req.UserIDs with
  | error e => simp
  | ok ids =>
    dsimp only
    cases hcnt : storeCount st (initFilter req.UserIDs ids) with
    | none => simp
    | some cnt =>
      dsimp only
      by_cases h0 : cnt = 0
      · rw [if_pos h0]
        right; left; exact ⟨_, rfl⟩
      · rw [if_neg h0]
        cases haft : applyAfter req.Pagination (initFilter req.UserIDs ids) with
        | error e => right; left; exact ⟨_, rfl⟩
        | ok f1 =>
          dsimp only
          cases hbef : applyBefore req.Pagination f1 with
          | error e => right; left; exact ⟨_, rfl⟩
          | ok f2 =>
            dsimp only
            cases hfnd : storeFind st f2 (findLimit req.Pagination)
                (buildSort req.SortingOptions) with
            | none => right; right; exact ⟨_, _, rfl⟩
            | some docs => right; right; exact ⟨_, _, rfl⟩

/-- The first malformed entry is a member, fails to decode, and determines
the error of the decode loop. -/
lemma firstBadID_spec : ∀ (l : List String) (bad : String), firstBadID l = some bad →
    bad ∈ l ∧ objectIDFromHex bad = none ∧
    decodeUserIDs l = .error (.unknownError
      ("Failed to decode the userID: " ++ bad ++ ".") (some (.hexDecode bad))) := by
  intro l
  induction l with
  | nil => intro bad h; simp [firstBadID] at h
  | cons s rest ih =>
    intro bad h
    unfold firstBadID at h
    cases hs : objectIDFromHex s with
    | none =>
      simp only [hs, Option.some.injEq] at h
      subst h
      refine ⟨List.mem_cons_self _ _, hs, ?_⟩
      unfold decodeUserIDs
      simp only [hs]
    | some i =>
      simp only [hs] at h
      obtain ⟨hmem, hbad, hdec⟩ := ih bad h
      refine ⟨List.mem_cons_of_mem _ hmem, hbad, ?_⟩
      unfold decodeUserIDs
      simp only [hs, hdec]
      rfl

/-- A list with some malformed entry has a first malformed entry. -/
lemma exists_firstBadID : ∀ (l : List String),
    (∃ s ∈ l, objectIDFromHex s = none) → ∃ bad, firstBadID l = some bad := by
  intro l
  induction l with
  | nil => intro h; simp at h
  | cons s rest ih =>
    intro h
    unfold firstBadID
    cases hs : objectIDFromHex s with
    | none => exact ⟨s, rfl⟩
    | some i =>
      simp only []
      apply ih
      obtain ⟨x, hx, hxd⟩ := h
      rcases List.mem_cons.mp hx with h1 | hxr
      · subst h1; rw [hs] at hxd; simp at hxd
      · exact ⟨x, hxr, hxd⟩

/-! ## The claims -/

/-- Claim C3: for every request whose predicate matches zero documents,
`Search` succeeds with `totalCount = 0`, an empty entry list and both page
flags false, and the trace of store operations is the count alone — the
fetch is never invoked. -/
theorem claim3_zero_count_short_circuit (st : Store) (req : SearchRequest)
    (ids : List Nat)
    (hdec : decodeUserIDs req.UserIDs = .ok ids)
    (hcf : st.countFails = false)
    (hzero : (st.docs.filter fun d => (initFilter req.UserIDs ids).eval d.1).length = 0) :
    search st (some req) =
      (.success { HasPreviousPage := false, HasNextPage := false,
                  TotalCount := 0, Users := [] },
       [.countDocuments (initFilter req.UserIDs ids)]) :=
  search_zero_count_aux st req ids hdec hcf hzero

/-- Claim C3, witness: a store whose single document does not match the
requested identifier filter yields the empty page from the count alone. -/
theorem claim3_zero_count_short_circuit_witness :
    search c3store (some c3req) =
      (.success { HasPreviousPage := false, HasNextPage := false,
                  TotalCount := 0, Users := [] },
       [.countDocuments (initFilter c3req.UserIDs [9])]) :=
  claim3_zero_count_short_circuit c3store c3req [9] rfl rfl rfl

/-- Claim C6: a request whose identifier filter holds an entry that does
not decode makes `Search` fail with the error naming that entry and
wrapping the decode failure, and no store operation at all is issued. -/
theorem claim6_filter_decode_failure (st : Store) (req : SearchRequest)
    (h : ∃ s ∈ req.UserIDs, objectIDFromHex s = none) :
    ∃ bad ∈ req.UserIDs, objectIDFromHex bad = none ∧
      search st (some req) =
        (.failure (.unknownError ("Failed to decode the userID: " ++ bad ++ ".")
          (some (.hexDecode bad))), []) := by
  obtain ⟨bad, hb⟩ := exists_firstBadID _ h
  obtain ⟨hmem, hnone, hdec⟩ := firstBadID_spec _ _ hb
  refine ⟨bad, hmem, hnone, ?_⟩
  show searchCore st req = _
  unfold searchCore
  simp only [hdec]

/-- Claim C6, witness: the filter entry "zzz" aborts the search before any
store operation. -/
theorem claim6_filter_decode_failure_witness :
    ∃ bad ∈ c6req.UserIDs, objectIDFromHex bad = none ∧
      search c6store (some c6req) =
        (.failure (.unknownError ("Failed to decode the userID: " ++ bad ++ ".")
          (some (.hexDecode bad))), []) :=
  claim6_filter_decode_failure c6store c6req ⟨"zzz", by simp [c6req], rfl⟩

/-- Claim C8, counterexample: a malformed-cursor failure and a store count
failure are both returned as the same error kind (`UnknownError`), so the
two failure classes are not distinguishable by error type alone. -/
theorem claim8_counterexample :
    (search c8store1 (some c8req1)).1 = Outcome.failure c8err1 ∧
    (search c8store2 (some c8req2)).1 = Outcome.failure countFailErr ∧
    RepoError.kind c8err1 = RepoError.kind countFailErr := by
  refine ⟨?_, ?_, rfl⟩ <;> rfl

/-- Claim C8 (amended): every error returned by `Search` is of the single
kind `UnknownError`; no finer taxonomy is visible in the error type. -/
theorem claim8_amended_error_kind (st : Store) (req : SearchRequest)
    (e : RepoError) (ops : List StoreOp)
    (h : search st (some req) = (.failure e, ops)) :
    e.kind = ErrKind.unknown :=
  searchCore_failure_kind st req e ops h

/-- Claim C8 (amended), witness: the count-failure error is of the
`UnknownError` kind. -/
theorem claim8_amended_error_kind_witness :
    RepoError.kind countFailErr = ErrKind.unknown :=
  claim8_amended_error_kind c8store2 c8req2 countFailErr
    [.countDocuments {}] rfl

/-- Claim C9, counterexample: called with a nil request, `Search` panics
(nil-pointer dereference on `request.UserIDs`) instead of returning an
`InvalidArgumentError`. -/
theorem claim9_counterexample :
    search c9store none = (Outcome.panicked, []) := rfl

/-- Claim C9 (amended): for every store, a nil request makes `Search`
dereference the nil pointer and panic before issuing any store operation;
no error value of any kind is returned. -/
theorem claim9_amended_panics (st : Store) :
    search st none = (Outcome.panicked, []) := rfl

/-- Claim C10: when the predicate matches zero documents, `Search` returns
the empty success page even when the `After` cursor is malformed — cursor
decoding happens only after the zero-count short circuit. -/
theorem claim10_zero_count_ignores_cursors (st : Store) (req : SearchRequest)
    (ids : List Nat) (a : String)
    (hdec : decodeUserIDs req.UserIDs = .ok ids)
    (hafter : req.Pagination.After = some a)
    (hbad : objectIDFromHex a = none)
    (hcf : st.countFails = false)
    (hzero : (st.docs.filter fun d => (initFilter req.UserIDs ids).eval d.1).length = 0) :
    search st (some req) =
      (.success { HasPreviousPage := false, HasNextPage := false,
                  TotalCount := 0, Users := [] },
       [.countDocuments (initFilter req.UserIDs ids)]) :=
  search_zero_count_aux st req ids hdec hcf hzero

/-- Claim C10, witness: an empty store and the malformed cursor "bad"
still give the empty success page. -/
theorem claim10_zero_count_ignores_cursors_witness :
    search c10store (some c10req) =
      (.success { HasPreviousPage := false, HasNextPage := false,
                  TotalCount := 0, Users := [] },
       [.countDocuments (initFilter c10req.UserIDs [])]) :=
  claim10_zero_count_ignores_cursors c10store c10req [] "bad" rfl rfl rfl rfl rfl

/-- Claim C1, counterexample: with `after` and `before` both set and
neither `first` nor `last` set, on a one-document store, `Search` returns
both page flags false, while the specification's decision table demands
true/true — the flags are not those of the table. -/
theorem claim1_counterexample :
    (search c1store (some c1req)).1 =
      Outcome.success { HasPreviousPage := false, HasNextPage := false,
                        TotalCount := 1, Users := [] } ∧
    specTableFlags c1req.Pagination 1 = (true, true) ∧
    ((false, false) : Bool × Bool) ≠ (true, true) :=
  ⟨rfl, rfl, by decide⟩

/-- Claim C1 (amended): for every successful `Search`, the flag pair
`(hasNextPage, hasPreviousPage)` is `(false, false)` when the total count
is zero, and otherwise is given by the code's cascade `codeFlags`:
true/true when (after and first set with first < totalCount) or (before
and last set with last < totalCount), else true/false when after absent
and first < totalCount, else false/true when before absent and
last < totalCount, else false/false. -/
theorem claim1_amended_flags (st : Store) (req : SearchRequest)
    (resp : SearchResponse) (ops : List StoreOp)
    (h : search st (some req) = (.success resp, ops)) :
    (resp.HasNextPage, resp.HasPreviousPage) =
      if resp.TotalCount = 0 then (false, false)
      else codeFlags req.Pagination resp.TotalCount := by
  obtain ⟨ids, cnt, hdec, hcnt, hcase⟩ := searchCore_success_inv st req resp ops h
  rcases hcase with ⟨h0, hresp, hops⟩ | ⟨h0, f1, f2, docs, haft, hbef, hfnd, hresp, hops⟩
  · subst hresp; subst h0; simp
  · subst hresp
    have hne : ((cnt : Int)) ≠ 0 := Int.natCast_ne_zero.mpr h0
    simp [assemble, hne]

/-- Claim C1 (amended), witness: a two-document store with `first = 1`
yields flags true/false, matching the cascade at total count 2. -/
theorem claim1_amended_flags_witness :
    (c1wresp.HasNextPage, c1wresp.HasPreviousPage) =
      if c1wresp.TotalCount = 0 then (false, false)
      else codeFlags c1wreq.Pagination c1wresp.TotalCount :=
  claim1_amended_flags c1wstore c1wreq c1wresp
    [.countDocuments {}, .find {} (some 1) []] rfl

/-- Claim C5, counterexample: with `first = 1` and `last = 2` both set,
the limit passed to the store's find is 2 (the `Last` assignment), while
the specification demands `first`, that is 1. -/
theorem claim5_counterexample :
    (search c5store (some c5req)).2 =
      [StoreOp.countDocuments {}, StoreOp.find {} (some 2) []] ∧
    specLimit c5req.Pagination = some 1 ∧
    (some 2 : Option Int) ≠ some 1 :=
  ⟨rfl, rfl, by decide⟩

/-- Claim C5 (amended): the fetch limit passed to the store is
`pagination.last` when present, otherwise `pagination.first` when present,
otherwise no limit — when both are present the limit equals `last`. -/
theorem claim5_amended_limit (st : Store) (req : SearchRequest)
    (res : Outcome) (ops : List StoreOp) (flt : Filter) (lim : Option Int)
    (srt : List (String × Int))
    (h : search st (some req) = (res, ops))
    (hmem : StoreOp.find flt lim srt ∈ ops) :
    lim = findLimit req.Pagination := by
  have h2 : (searchCore st req).2 = ops := by
    have h' : searchCore st req = (res, ops) := h
    rw [h']
  rcases searchCore_ops st req with h1 | ⟨f0, h1⟩ | ⟨f0, f2, h1⟩ <;> rw [h2] at h1
  · subst h1; simp at hmem
  · subst h1; simp at hmem
  · subst h1
    rcases List.mem_cons.mp hmem with hx | hx
    · simp at hx
    · have hx2 := List.mem_singleton.mp hx
      simp only [StoreOp.find.injEq] at hx2
      exact hx2.2.1

/-- Claim C5 (amended), witness: with `first = 1` and `last = 2`, the find
carries limit 2, which is `findLimit` of the request. -/
theorem claim5_amended_limit_witness :
    (some 2 : Option Int) = findLimit c5req.Pagination :=
  claim5_amended_limit c5store c5req
    (Outcome.success { HasPreviousPage := false, HasNextPage := true,
                       TotalCount := 3, Users := [mkEntry (1, sampleUser), mkEntry (2, sampleUser)] })
    [.countDocuments {}, .find {} (some 2) []] {} (some 2) [] rfl (by simp)

/-- Claim C7: on every successful `Search`, the returned total count is
the number of documents matching the identifier filter alone — the count
query is issued against the filter before any pagination bound is added,
so pagination never changes it. -/
theorem claim7_total_count (st : Store) (req : SearchRequest)
    (resp : SearchResponse) (ops : List StoreOp)
    (h : search st (some req) = (.success resp, ops)) :
    ∃ ids, decodeUserIDs req.UserIDs = .ok ids ∧
      resp.TotalCount =
        ((st.docs.filter fun d => (initFilter req.UserIDs ids).eval d.1).length : Int) ∧
      ops.head? = some (.countDocuments (initFilter req.UserIDs ids)) := by
  obtain ⟨ids, cnt, hdec, hcnt, hcase⟩ := searchCore_success_inv st req resp ops h
  have hcnt2 : cnt = (st.docs.filter fun d => (initFilter req.UserIDs ids).eval d.1).length := by
    unfold storeCount at hcnt
    by_cases hc : st.countFails
    · rw [if_pos hc] at hcnt; simp at hcnt
    · rw [if_neg hc] at hcnt
      injection hcnt with h1
      exact h1.symm
  rcases hcase with ⟨h0, hresp, hops⟩ | ⟨h0, f1, f2, docs, haft, hbef, hfnd, hresp, hops⟩
  · refine ⟨ids, hdec, ?_, ?_⟩
    · rw [hresp]; simp [hcnt2]
    · rw [hops]; rfl
  · refine ⟨ids, hdec, ?_, ?_⟩
    · rw [hresp]; simp [assemble, hcnt2]
    · rw [hops]; rfl

/-- Claim C7, witness: a one-document store with no filter gives total
count 1, the size of the unfiltered store, and the count runs first. -/
theorem claim7_total_count_witness :
    ∃ ids, decodeUserIDs c7wreq.UserIDs = .ok ids ∧
      ({ HasPreviousPage := false, HasNextPage := false, TotalCount := 1,
         Users := [mkEntry (3, sampleUser)] } : SearchResponse).TotalCount =
        ((c7wstore.docs.filter fun d => (initFilter c7wreq.UserIDs ids).eval d.1).length : Int) ∧
      ([StoreOp.countDocuments {}, StoreOp.find {} none []] : List StoreOp).head? =
        some (.countDocuments (initFilter c7wreq.UserIDs ids)) :=
  claim7_total_count c7wstore c7wreq
    { HasPreviousPage := false, HasNextPage := false, TotalCount := 1,
      Users := [mkEntry (3, sampleUser)] }
    [StoreOp.countDocuments {}, StoreOp.find {} none []] rfl

/-- Claim C4 (code bug, observed at the failing input): with the non-empty
identifier filter `[1, 2, 3]`, `after = cursor(2)` and `before = cursor(3)`,
the find query carries only the in-list and the less-than bound — the
re-assignment of the single `$and` key dropped the greater-than bound —
and the response contains the document with identifier 1, which is not
strictly greater than the decoded `after` bound 2. -/
theorem claim4_bug_eval :
    (search c4store (some c4req)).2 =
      [StoreOp.countDocuments { idCond := some (.inList [1, 2, 3]) },
       StoreOp.find { idCond := some (.inList [1, 2, 3]), andCond := some (.lt 3) }
         none []] ∧
    (search c4store (some c4req)).1 =
      Outcome.success
        { HasPreviousPage := false
          HasNextPage := false
          TotalCount := 3
          Users := [mkEntry (1, sampleUser), mkEntry (2, sampleUser)] } :=
  ⟨rfl, rfl⟩

/-- Claim C2: on a store of exactly 10 documents in ascending identifier
order, a request with empty identifier filter, no sort keys,
`after = cursor(entity 0)` and `first = 9` returns exactly the documents
after the first one, in ascending order, with `totalCount = 10`,
`hasNextPage = true` and `hasPreviousPage = true`. -/
theorem claim2_forward_pagination
    (st : Store) (req : SearchRequest) (d0 : Nat × User) (rest : List (Nat × User))
    (hdocs : st.docs = d0 :: rest)
    (hcf : st.countFails = false) (hff : st.findFails = false)
    (hlen : st.docs.length = 10)
    (hsorted : st.docs.Pairwise fun a b => a.1 < b.1)
    (hbound : d0.1 < 16 ^ 24)
    (hids : req.UserIDs = [])
    (hsortopts : req.SortingOptions = [])
    (hafter : req.Pagination.After = some (objectIDHex d0.1))
    (hbefore : req.Pagination.Before = none)
    (hfirst : req.Pagination.First = some 9)
    (hlast : req.Pagination.Last = none) :
    (search st (some req)).1 =
      Outcome.success
        { HasPreviousPage := true
          HasNextPage := true
          TotalCount := 10
          Users := rest.map mkEntry } := by
  have hrest : rest.length = 9 := by
    rw [hdocs] at hlen; simpa using hlen
  have hgt : ∀ b ∈ rest, d0.1 < b.1 := by
    rw [hdocs] at hsorted
    exact (List.pairwise_cons.mp hsorted).1
  have hdec : decodeUserIDs req.UserIDs = .ok [] := by rw [hids]; rfl
  have hif : initFilter req.UserIDs [] = {} := by rw [hids]; rfl
  have hcntv : storeCount st (initFilter req.UserIDs []) = some 10 := by
    rw [hif]
    unfold storeCount
    rw [hcf]
    have hall : (st.docs.filter fun d => Filter.eval {} d.1) = st.docs :=
      List.filter_eq_self.mpr fun a _ => rfl
    simp [hall, hlen]
  have haft : applyAfter req.Pagination (initFilter req.UserIDs []) =
      .ok { idCond := some (IdCond.gt d0.1) } := by
    rw [hif]
    unfold applyAfter
    rw [hafter]
    simp only [objectIDFromHex_objectIDHex d0.1 hbound]
    rfl
  have hbef : applyBefore req.Pagination { idCond := some (IdCond.gt d0.1) } =
      .ok { idCond := some (IdCond.gt d0.1) } := by
    unfold applyBefore
    rw [hbefore]
  have hlim : findLimit req.Pagination = some 9 := by
    simp [findLimit, hfirst, hlast]
  have hsrt : buildSort req.SortingOptions = [] := by rw [hsortopts]; rfl
  have hfilter : (st.docs.filter fun d =>
      Filter.eval { idCond := some (IdCond.gt d0.1) } d.1) = rest := by
    rw [hdocs]
    have hd0 : Filter.eval { idCond := some (IdCond.gt d0.1) } d0.1 = false := by
      simp [Filter.eval, IdCond.eval]
    rw [List.filter_cons]
    simp only [hd0]
    simp only [Bool.false_eq_true, if_false]
    apply List.filter_eq_self.mpr
    intro b hb
    simp only [Filter.eval, IdCond.eval, Bool.and_true]
    exact decide_eq_true (hgt b hb)
  have happ : ∀ l : List (Nat × User), applySort [] l = l := fun l => rfl
  have htake : applyLimit (some 9) rest = rest := by
    unfold applyLimit
    show rest.take (Int.toNat 9) = rest
    rw [show (9 : Int).toNat = 9 from rfl, ← hrest, List.take_length]
  have hfnd : storeFind st { idCond := some (IdCond.gt d0.1) } (findLimit req.Pagination)
      (buildSort req.SortingOptions) = some rest := by
    rw [hlim, hsrt]
    unfold storeFind
    rw [hff]
    simp only [Bool.false_eq_true, if_false, happ]
    rw [hfilter, htake]
  have hev := searchCore_eval st req [] 10 { idCond := some (IdCond.gt d0.1) }
      { idCond := some (IdCond.gt d0.1) } rest hdec hcntv (by norm_num) haft hbef hfnd
  show (searchCore st req).1 = _
  rw [hev]
  have hfl : codeFlags req.Pagination (10 : Int) = (true, true) := by
    unfold codeFlags
    rw [hafter, hfirst]
    simp [intLt]
  simp [assemble, hfl]

/-- Claim C2, witness: the concrete ten-document store with identifiers
1 to 10, `after = cursor(1)`, `first = 9`. -/
theorem claim2_forward_pagination_witness :
    (search c2store (some c2req)).1 =
      Outcome.success
        { HasPreviousPage := true
          HasNextPage := true
          TotalCount := 10
          Users := c2rest.map mkEntry } :=
  claim2_forward_pagination c2store c2req (1, sampleUser) c2rest rfl rfl rfl rfl
    (by decide) (by norm_num) rfl rfl rfl rfl rfl rfl

end UserRepo
